import Mathlib

/-!
Verification of the fleet compliance reconciliation engine of
`diff-aware-quality-workflow-py` (package `standard_ci`).

The Python modules `scanner.py`, `updater.py`, `templates.py` and
`auto_update.py` are shallowly embedded below.  Network and subprocess
interactions are modelled by passing the outcome of each external call
explicitly (an oracle value), while all in-process control flow and string
construction follow the source line by line.
-/

namespace StandardCI

/-! ### Scanner (`scanner.py`)

`scan_repo` consumes the parsed `.standard.yml` configuration (the result of
`fetch_standard_config`, which is `None` when the file is absent).  A parsed
configuration is a dictionary; the three keys `scan_repo` reads are modelled
as optional fields (`none` models an absent key, read with `.get(k, "")`). -/

structure StandardConfig where
  tag : Option String
  sha : Option String
  workflows : List String
deriving Repr, DecidableEq

structure ScanResult where
  repo : String
  has_config : Bool
  current_tag : Option String
  current_sha : Option String
  up_to_date : Bool
  workflows : List String
  issues : List String
deriving Repr, DecidableEq

/-- `scan_repo` from `scanner.py` (lines 84-118), as a function of the fetched
configuration.  The result dict starts all-false/empty and is updated exactly
as in the source. -/
def scan_repo (repo : String) (config : Option StandardConfig)
    (latest_sha latest_tag : String) : ScanResult :=
  match config with
  | none =>
      { repo := repo, has_config := false, current_tag := none,
        current_sha := none, up_to_date := false, workflows := [],
        issues := ["No .standard.yml found"] }
  | some cfg =>
      let ctag := cfg.tag.getD ""
      let csha := cfg.sha.getD ""
      if csha = latest_sha then
        { repo := repo, has_config := true, current_tag := some ctag,
          current_sha := some csha, up_to_date := true,
          workflows := cfg.workflows, issues := [] }
      else
        { repo := repo, has_config := true, current_tag := some ctag,
          current_sha := some csha, up_to_date := false,
          workflows := cfg.workflows,
          issues := ["SHA drift: " ++ ctag ++ " -> " ++ latest_tag] }

/-! ### Version resolver (`updater.py`)

`resolve_tag_sha` tries the structured listing API and, when that raises any
exception, falls back to `git ls-remote`.  The outcome of each external call
is an explicit parameter; raised exceptions are `Except.error`. -/

structure TagEntry where
  name : String
  sha : String
deriving Repr, DecidableEq

/-- Outcome of the `urllib` request plus JSON decode inside
`_resolve_via_api`: either some exception was raised while fetching or
decoding (`fail`), or a list of tag entries was obtained. -/
inductive ApiOutcome where
  | fail (err : String)
  | tags (entries : List TagEntry)
deriving Repr, DecidableEq

/-- `_resolve_via_api` from `updater.py` (lines 27-40). -/
def resolve_via_api (tag : Option String) (api : ApiOutcome) :
    Except String (String × String) :=
  match api with
  | .fail e => .error e
  | .tags entries =>
      match entries with
      | [] => .error "No tags found"
      | first :: _ =>
          match tag with
          | none => .ok (first.sha, first.name)
          | some t =>
              match entries.find? (fun e => e.name == t) with
              | some e => .ok (e.sha, e.name)
              | none => .error ("Tag " ++ t ++ " not found")

/-- Outcome of the `git ls-remote` subprocess inside `_resolve_via_git`:
the binary may be missing (`FileNotFoundError`), the command may exit
non-zero, or it produces stdout text. -/
inductive GitOutcome where
  | noGit
  | fail (stderr : String)
  | output (stdout : String)
deriving Repr, DecidableEq

/-- Strip any trailing characters drawn from `cs` (Python `str.rstrip`). -/
def rstripChars (s : String) (cs : List Char) : String :=
  String.mk ((s.data.reverse.dropWhile (fun c => cs.contains c)).reverse)

/-- One line of `git ls-remote` output: `line.split("\t", 1)` unpacked into
`sha, ref`, then `ref.replace("refs/tags/", "").rstrip("^\x7b\x7d")`.
A line without a tab raises (unpacking error). -/
def parse_ls_remote_line (line : String) : Except String (String × String) :=
  match line.splitOn "\t" with
  | [] => .error "not enough values to unpack"
  | [_] => .error "not enough values to unpack"
  | sha :: rest =>
      let ref := String.intercalate "\t" rest
      let ref := ref.replace "refs/tags/" ""
      let ref := rstripChars ref [Char.ofNat 94, Char.ofNat 123, Char.ofNat 125]
      .ok (sha, ref)

/-- `result.stdout.strip().splitlines()` for newline-separated output. -/
def splitlinesStripped (s : String) : List String :=
  let t := s.trim
  if t = "" then [] else t.splitOn "\n"

/-- `_resolve_via_git` from `updater.py` (lines 43-72). -/
def resolve_via_git (tag : Option String) (git : GitOutcome) :
    Except String (String × String) :=
  match git with
  | .noGit => .error "git not found and GitHub API unavailable"
  | .fail stderr => .error ("git ls-remote failed: " ++ stderr.trim)
  | .output stdout =>
      match (splitlinesStripped stdout).mapM parse_ls_remote_line with
      | .error e => .error e
      | .ok entries =>
          if entries.isEmpty then .error "No tags found via git ls-remote"
          else
            match tag with
            | none => .ok (entries.getLast!)
            | some t =>
                match entries.find? (fun e => e.2 == t) with
                | some e => .ok e
                | none => .error ("Tag " ++ t ++ " not found via git ls-remote")

/-- `resolve_tag_sha` from `updater.py` (lines 12-24): try the API tier,
on any exception fall back to the git tier. -/
def resolve_tag_sha (tag : Option String) (api : ApiOutcome) (git : GitOutcome) :
    Except String (String × String) :=
  match resolve_via_api tag api with
  | .ok r => .ok r
  | .error _ => resolve_via_git tag git

/-! ### Artifact renderer (`templates.py`, `workflows.py`)

Input values are Python scalars: strings, booleans and integers.  Python
dictionaries are association lists with first-match lookup; `dict.update`
keeps an existing key's position and appends new keys in order. -/

inductive Value where
  | str (s : String)
  | bool (b : Bool)
  | int (n : Int)
deriving Repr, DecidableEq

/-- Python `==` on the scalar values above (`bool` is an `int` subtype, so
`True == 1` and `False == 0`; values of unrelated types compare unequal). -/
def pyEq : Value → Value → Bool
  | .str a, .str b => a == b
  | .bool a, .bool b => a == b
  | .int a, .int b => a == b
  | .bool a, .int b => (if a then (1 : Int) else 0) == b
  | .int a, .bool b => a == (if b then (1 : Int) else 0)
  | _, _ => false

/-- Python truthiness of the scalar values above. -/
def Value.truthy : Value → Bool
  | .str s => !(s == "")
  | .bool b => b
  | .int n => !(n == 0)

/-- A single-quote character as a string. -/
def squote : String := String.mk [Char.ofNat 39]

/-- `_yaml_value` from `templates.py` (lines 8-19). -/
def yaml_value : Value → String
  | .bool b => if b then "true" else "false"
  | .str s =>
      if s == "" then squote ++ squote
      else if s == "true" || s == "false" || s == "yes" || s == "no"
          || s == "null" || s.contains (Char.ofNat 58) then
        squote ++ s ++ squote
      else s
  | .int n => toString n

/-- One entry of a `required_inputs` / `optional_inputs` registry dict in
`workflows.py`. -/
structure InputMeta where
  type : String
  default : Value
  prompt : String
  group : Option String := none
deriving Repr, DecidableEq

/-- One workflow entry of `ALL_WORKFLOWS` in `workflows.py`. -/
structure Workflow where
  name : String
  filename : String
  workflow_name : String
  ref_path : String
  required_inputs : List (String × InputMeta)
  optional_inputs : List (String × InputMeta)
  permissions : List (String × String)
  extra_permissions_if : List (String × List (String × String))
deriving Repr, DecidableEq

/-- Python `dict.get(key)` on an association list (first match wins). -/
def lookupD {α : Type} (d : List (String × α)) (key : String) : Option α :=
  (d.find? (fun kv => kv.1 == key)).map (fun kv => kv.2)

/-- Python `dict.update`: keys of `d` keep their position and take the value
from `e` when present there; keys only in `e` are appended in `e`'s order. -/
def dictUpdate {α : Type} (d e : List (String × α)) : List (String × α) :=
  (d.map (fun kv =>
    match lookupD e kv.1 with
    | some v => (kv.1, v)
    | none => kv))
  ++ e.filter (fun kv => (lookupD d kv.1).isNone)

/-- `all_inputs` of `generate_workflow` (templates.py lines 49-51):
an empty dict updated with the required then the optional inputs. -/
def allInputs (wf : Workflow) : List (String × InputMeta) :=
  dictUpdate wf.required_inputs wf.optional_inputs

/-- The loop body of templates.py lines 54-63: what (if anything) the
`with:` block emits for one key of `all_inputs` with spec default `dflt`. -/
def emitDecision (wf : Workflow) (inputs : List (String × Value))
    (key : String) (dflt : Value) : Option String :=
  match lookupD inputs key with
  | some value =>
      if pyEq value dflt then none
      else some ("      " ++ key ++ ": " ++ yaml_value value)
  | none =>
      if (lookupD wf.required_inputs key).isSome then
        some ("      " ++ key ++ ": " ++ squote ++ squote ++ "  # TODO: set this value")
      else none

/-- `with_lines` of `generate_workflow` (templates.py lines 53-63). -/
def withLines (wf : Workflow) (inputs : List (String × Value)) : List String :=
  (allInputs wf).filterMap (fun kv => emitDecision wf inputs kv.1 kv.2.default)

/-- `perms` of `generate_workflow` (templates.py lines 69-73): the base
permissions updated by each conditional grant whose trigger input is truthy. -/
def buildPerms (wf : Workflow) (inputs : List (String × Value)) :
    List (String × String) :=
  wf.extra_permissions_if.foldl
    (fun perms te =>
      if (match lookupD inputs te.1 with
          | some v => v.truthy
          | none => false) then dictUpdate perms te.2 else perms)
    wf.permissions

def REPO : String := "PavelGuzenfeld/standard"

/-- `generate_workflow` from `templates.py` (lines 22-80), as a function of
the looked-up workflow spec.  `sorted(perms.items())` sorts by key (keys are
unique after dict construction). -/
def generate_workflow_spec (workflow_name : String) (wf : Workflow)
    (inputs : List (String × Value)) (sha tag_name : String) : String :=
  let headerLines := [
    "name: " ++ wf.workflow_name,
    "",
    "on:",
    "  pull_request:",
    "    branches: [main, master]",
    "  workflow_dispatch:",
    "",
    "jobs:",
    "  " ++ workflow_name.replace "-" "_" ++ ":",
    "    uses: " ++ REPO ++ "/" ++ wf.ref_path ++ "@" ++ sha ++ "  # " ++ tag_name]
  let wls := withLines wf inputs
  let lines := headerLines ++ (if wls.isEmpty then [] else "    with:" :: wls)
  let perms := (buildPerms wf inputs).insertionSort (fun a b => a.1 ≤ b.1)
  let lines := lines ++ ["    permissions:"]
    ++ perms.map (fun p => "      " ++ p.1 ++ ": " ++ p.2) ++ [""]
  String.intercalate "\n" lines

/-- `CPP_QUALITY` from `workflows.py` (lines 8-96). -/
def CPP_QUALITY : Workflow :=
  { name := "cpp-quality", filename := "cpp-quality.yml",
    workflow_name := "C++ Quality",
    ref_path := ".github/workflows/cpp-quality.yml",
    required_inputs := [
      ("docker_image", { type := "string", default := .str "", prompt := "Docker image (ghcr.io/org/image:tag)" })],
    optional_inputs := [
      ("compile_commands_path", { type := "string", default := .str "build", prompt := "compile_commands.json directory" }),
      ("source_setup", { type := "string", default := .str "", prompt := "Source setup command (e.g. source /opt/ros/humble/setup.bash)" }),
      ("enable_clang_format", { type := "boolean", default := .bool false, prompt := "Enable clang-format?", group := some "checks" }),
      ("enable_file_naming", { type := "boolean", default := .bool false, prompt := "Enable file naming convention (snake_case)?", group := some "checks" }),
      ("ban_cout", { type := "boolean", default := .bool false, prompt := "Ban cout/printf in non-test code?", group := some "checks" }),
      ("ban_new", { type := "boolean", default := .bool false, prompt := "Ban raw new/delete in non-test code?", group := some "checks" }),
      ("enforce_doctest", { type := "boolean", default := .bool false, prompt := "Enforce doctest (ban gtest)?", group := some "checks" }),
      ("enable_flawfinder", { type := "boolean", default := .bool false, prompt := "Enable flawfinder CWE scanning?", group := some "checks" }),
      ("enable_sarif", { type := "boolean", default := .bool false, prompt := "Upload SARIF to GitHub Security tab?", group := some "checks" }),
      ("enable_sanitizers", { type := "boolean", default := .bool false, prompt := "Enable ASan/UBSan sanitizer tests?", group := some "runtime" }),
      ("enable_iwyu", { type := "boolean", default := .bool false, prompt := "Enable Include-What-You-Use?", group := some "runtime" })],
    permissions := [
      ("actions", "read"), ("contents", "read"), ("packages", "read"),
      ("pull-requests", "write")],
    extra_permissions_if := [
      ("enable_flawfinder", [("security-events", "write")]),
      ("enable_sarif", [("security-events", "write")])] }

/-- `PYTHON_QUALITY` from `workflows.py` (lines 98-132). -/
def PYTHON_QUALITY : Workflow :=
  { name := "python-quality", filename := "python-quality.yml",
    workflow_name := "Python Quality",
    ref_path := ".github/workflows/python-quality.yml",
    required_inputs := [],
    optional_inputs := [
      ("python_linter", { type := "string", default := .str "ruff", prompt := "Linter (ruff / flake8)" }),
      ("source_dirs", { type := "string", default := .str "src", prompt := "Source directories (space-separated)" }),
      ("test_dirs", { type := "string", default := .str "tests", prompt := "Test directories (space-separated)" }),
      ("enable_tests", { type := "boolean", default := .bool true, prompt := "Run pytest + coverage?", group := some "checks" })],
    permissions := [("contents", "read"), ("pull-requests", "write")],
    extra_permissions_if := [] }

/-- `INFRA_LINT` from `workflows.py` (lines 134-184). -/
def INFRA_LINT : Workflow :=
  { name := "infra-lint", filename := "infra-lint.yml",
    workflow_name := "Infrastructure Lint",
    ref_path := ".github/workflows/infra-lint.yml",
    required_inputs := [],
    optional_inputs := [
      ("enable_shellcheck", { type := "boolean", default := .bool false, prompt := "Enable ShellCheck (shell scripts)?", group := some "checks" }),
      ("enable_hadolint", { type := "boolean", default := .bool false, prompt := "Enable Hadolint (Dockerfiles)?", group := some "checks" }),
      ("enable_cmake_lint", { type := "boolean", default := .bool false, prompt := "Enable cmake-lint (CMake files)?", group := some "checks" }),
      ("enable_dangerous_workflows", { type := "boolean", default := .bool false, prompt := "Enable dangerous-workflow audit?", group := some "checks" }),
      ("enable_binary_artifacts", { type := "boolean", default := .bool false, prompt := "Enable binary artifact detection?", group := some "checks" }),
      ("enable_gitleaks", { type := "boolean", default := .bool false, prompt := "Enable Gitleaks secrets detection?", group := some "checks" })],
    permissions := [
      ("actions", "read"), ("contents", "read"), ("pull-requests", "write")],
    extra_permissions_if := [] }

/-- `SAST_PYTHON` from `workflows.py` (lines 186-219). -/
def SAST_PYTHON : Workflow :=
  { name := "sast-python", filename := "sast-python.yml",
    workflow_name := "Python SAST",
    ref_path := ".github/workflows/sast-python.yml",
    required_inputs := [],
    optional_inputs := [
      ("enable_semgrep", { type := "boolean", default := .bool true, prompt := "Enable Semgrep security scanning?", group := some "checks" }),
      ("enable_pip_audit", { type := "boolean", default := .bool true, prompt := "Enable pip-audit CVE scanning?", group := some "checks" }),
      ("enable_codeql", { type := "boolean", default := .bool false, prompt := "Enable CodeQL deep analysis?", group := some "checks" })],
    permissions := [
      ("actions", "read"), ("contents", "read"), ("pull-requests", "write"),
      ("security-events", "write")],
    extra_permissions_if := [] }

/-- `ALL_WORKFLOWS` from `workflows.py` (lines 221-226). -/
def ALL_WORKFLOWS : List (String × Workflow) :=
  [("cpp-quality", CPP_QUALITY), ("python-quality", PYTHON_QUALITY),
   ("infra-lint", INFRA_LINT), ("sast-python", SAST_PYTHON)]

/-- `generate_workflow` from `templates.py`: look the name up in the registry
(`none` models the `KeyError` on an unknown name) and render. -/
def generate_workflow (workflow_name : String) (inputs : List (String × Value))
    (sha tag_name : String) : Option String :=
  (lookupD ALL_WORKFLOWS workflow_name).map
    (fun wf => generate_workflow_spec workflow_name wf inputs sha tag_name)

/-! ### Remediation engine (`auto_update.py`)

The engine's subprocess interactions are modelled with a per-repo oracle
(`RepoWorld`) giving each external command's outcome, and the engine returns,
besides its status messages, the trace of external operations it performed
(`Op`).  Steps that raise a Python exception carry `some message`; raised
exceptions inside `_update_single_repo` are caught by the caller's
`except Exception` and become a `Failed` status line. -/

/-- Outcome of the `gh pr list` command inside `_check_existing_pr`:
non-zero exit status, unparseable JSON on stdout, or a parsed list of `n`
pull requests. -/
inductive PrQueryResult where
  | error
  | badJson
  | prs (n : Nat)
deriving Repr, DecidableEq

/-- `_check_existing_pr` from `auto_update.py` (lines 29-45): `False` on a
non-zero exit status, `False` on a JSON decode failure, else whether the
parsed list is non-empty. -/
def check_existing_pr : PrQueryResult → Bool
  | .error => false
  | .badJson => false
  | .prs n => decide (0 < n)

/-- External operations the engine can perform for a repo. -/
inductive Op where
  | checkPR (repo branch : String)
  | clone (repo : String)
  | createBranch (repo branch : String)
  | commit (repo : String)
  | push (repo branch : String)
  | openPR (repo branch : String)
deriving Repr, DecidableEq

/-- Oracle for one repo's external world: the PR-list query outcome, which
steps of `_update_single_repo` raise (with their message), whether
`git status --porcelain` is empty after the textual substitution, and the
exit status of `gh pr create` (whose stdout/return code the source
discards). -/
structure RepoWorld where
  prQuery : PrQueryResult
  cloneErr : Option String
  branchErr : Option String
  substErr : Option String
  statusErr : Option String
  statusClean : Bool
  addErr : Option String
  commitErr : Option String
  pushErr : Option String
  prCreateExc : Option String
  prCreateFails : Bool
deriving Repr, DecidableEq

/-- `_update_single_repo` from `auto_update.py` (lines 104-190): clone,
create the branch, substitute sha/tag markers in `.standard.yml` and the
workflow files, check `git status --porcelain`, and — only when it reports
changes — add, commit, push and invoke `gh pr create` (whose result is
discarded: only a raised exception, `prCreateExc`, escapes).  Returns the
operations attempted and the raised exception, if any. -/
def update_single_repo (w : RepoWorld) (repo branch : String) :
    List Op × Option String :=
  match w.cloneErr with
  | some e => ([.clone repo], some e)
  | none =>
    match w.branchErr with
    | some e => ([.clone repo, .createBranch repo branch], some e)
    | none =>
      match w.substErr with
      | some e => ([.clone repo, .createBranch repo branch], some e)
      | none =>
        match w.statusErr with
        | some e => ([.clone repo, .createBranch repo branch], some e)
        | none =>
          if w.statusClean then
            ([.clone repo, .createBranch repo branch], none)
          else
            match w.addErr with
            | some e => ([.clone repo, .createBranch repo branch], some e)
            | none =>
              match w.commitErr with
              | some e =>
                  ([.clone repo, .createBranch repo branch, .commit repo], some e)
              | none =>
                match w.pushErr with
                | some e =>
                    ([.clone repo, .createBranch repo branch, .commit repo,
                      .push repo branch], some e)
                | none =>
                  match w.prCreateExc with
                  | some e =>
                      ([.clone repo, .createBranch repo branch, .commit repo,
                        .push repo branch, .openPR repo branch], some e)
                  | none =>
                      ([.clone repo, .createBranch repo branch, .commit repo,
                        .push repo branch, .openPR repo branch], none)

/-- The first exception `_update_single_repo` hits in a world `w` (steps
after the status check are reached only when the working copy differs). -/
def firstFailure (w : RepoWorld) : Option String :=
  w.cloneErr <|> w.branchErr <|> w.substErr <|> w.statusErr <|>
    (if w.statusClean then none
     else w.addErr <|> w.commitErr <|> w.pushErr <|> w.prCreateExc)

/-- `repo_info.get("current_tag") or "unknown"` (auto_update.py line 77). -/
def old_tag_of (r : ScanResult) : String :=
  match r.current_tag with
  | some t => if t = "" then "unknown" else t
  | none => "unknown"

/-- `repo_info.get("current_sha") or ""` (auto_update.py line 78). -/
def old_sha_of (r : ScanResult) : String :=
  r.current_sha.getD ""

/-- One iteration of the repo loop of `auto_update_repos` (lines 72-96):
the status messages appended and the external operations performed for one
scan result. -/
def processRepo (env : String → RepoWorld) (latest_tag : String)
    (dry_run : Bool) (branch_name : String) (r : ScanResult) :
    List String × List Op :=
  if !r.has_config || r.up_to_date then ([], [])
  else if dry_run then
    (["Would update " ++ r.repo ++ ": " ++ old_tag_of r ++ " -> " ++ latest_tag],
     [])
  else
    let w := env r.repo
    if check_existing_pr w.prQuery then
      (["Skipped " ++ r.repo ++ ": PR already open for " ++ branch_name],
       [.checkPR r.repo branch_name])
    else
      match update_single_repo w r.repo branch_name with
      | (ops, none) =>
          (["Opened PR in " ++ r.repo ++ ": " ++ old_tag_of r ++ " -> " ++ latest_tag],
           .checkPR r.repo branch_name :: ops)
      | (ops, some e) =>
          (["Failed " ++ r.repo ++ ": " ++ e], .checkPR r.repo branch_name :: ops)

/-- The whole repo loop: concatenated messages and operation trace. -/
def runRepos (env : String → RepoWorld) (latest_tag : String) (dry_run : Bool)
    (branch_name : String) (rs : List ScanResult) : List String × List Op :=
  (((rs.map (processRepo env latest_tag dry_run branch_name)).map Prod.fst).flatten,
   ((rs.map (processRepo env latest_tag dry_run branch_name)).map Prod.snd).flatten)

/-- `auto_update_repos` from `auto_update.py` (lines 48-101).  The token,
title-prefix and label arguments feed only the text of external commands,
never the control flow or the returned messages, and are not modelled;
`latest_sha` likewise only feeds the substituted file content, whose effect
the oracle's `statusClean` captures. -/
def auto_update_repos (env : String → RepoWorld)
    (scan_results : List ScanResult) (latest_tag : String) (dry_run : Bool) :
    List String × List Op :=
  let branch_name := "standard-ci/update-" ++ latest_tag
  let res := runRepos env latest_tag dry_run branch_name scan_results
  (if res.1.isEmpty then ["All repos are up to date — no PRs needed"]
   else res.1,
   res.2)

/-! ### Concrete sample worlds and scan results (used in witnesses and
counterexamples; the scan results mirror `tests/test_auto_update.py`). -/

/-- Every external step succeeds and the substitution changes files. -/
def okWorld : RepoWorld :=
  { prQuery := .prs 0, cloneErr := none, branchErr := none, substErr := none,
    statusErr := none, statusClean := false, addErr := none,
    commitErr := none, pushErr := none, prCreateExc := none,
    prCreateFails := false }

/-- All steps succeed but the substitution leaves the working copy clean. -/
def cleanWorld : RepoWorld := { okWorld with statusClean := true }

/-- `git clone` fails. -/
def cloneFailWorld : RepoWorld := { okWorld with cloneErr := some "clone failed" }

/-- `gh pr create` exits non-zero (no exception raised). -/
def prCreateFailWorld : RepoWorld := { okWorld with prCreateFails := true }

/-- The `gh pr list` query exits non-zero. -/
def prErrorWorld : RepoWorld := { okWorld with prQuery := .error }

/-- One open PR already exists on the queried branch. -/
def prOpenWorld : RepoWorld := { okWorld with prQuery := .prs 1 }

def driftedRepo : ScanResult :=
  { repo := "org/drifted-repo", has_config := true,
    current_tag := some "v0.9.0", current_sha := some "sha_old",
    up_to_date := false, workflows := ["cpp-quality"],
    issues := ["SHA drift: v0.9.0 -> v1.0.0"] }

def noConfigRepo : ScanResult :=
  { repo := "org/no-config", has_config := false, current_tag := none,
    current_sha := none, up_to_date := false, workflows := [],
    issues := ["No .standard.yml found"] }

end StandardCI

namespace StandardCI

/-! ### Claim theorems for the scanner and the resolver -/

/-- C1: for a present declared state, `scan_repo` marks the repo current
exactly when the declared sha string equals the canonical sha; the verdict is
unchanged under any rewriting of the declared tag; and when the shas differ
the single issue names the declared tag and the canonical tag. -/
theorem scan_repo_current_iff_sha (repo : String) (cfg : StandardConfig)
    (latest_sha latest_tag : String) :
    ((scan_repo repo (some cfg) latest_sha latest_tag).up_to_date
        = (cfg.sha.getD "" == latest_sha))
    ∧ (∀ t : Option String,
        (scan_repo repo (some ⟨t, cfg.sha, cfg.workflows⟩) latest_sha latest_tag).up_to_date
          = (scan_repo repo (some cfg) latest_sha latest_tag).up_to_date)
    ∧ (cfg.sha.getD "" ≠ latest_sha →
        (scan_repo repo (some cfg) latest_sha latest_tag).issues
          = ["SHA drift: " ++ cfg.tag.getD "" ++ " -> " ++ latest_tag]) := by
  refine ⟨?_, ?_, ?_⟩
  · by_cases h : cfg.sha.getD "" = latest_sha <;>
      simp [scan_repo, h]
  · intro t
    by_cases h : cfg.sha.getD "" = latest_sha <;>
      simp [scan_repo, h]
  · intro h
    simp [scan_repo, h]

theorem scan_repo_current_iff_sha_w :
    (scan_repo "org/x" (some ⟨some "v0.9.0", some "bbb", []⟩) "aaa" "v1.0.0").issues
      = ["SHA drift: v0.9.0 -> v1.0.0"] :=
  (scan_repo_current_iff_sha "org/x" ⟨some "v0.9.0", some "bbb", []⟩ "aaa" "v1.0.0").2.2
    (by decide)

/-- C7: version resolution is two-tiered.  Whenever the API tier raises, the
result is exactly the git tier's result (silent fallback, for every target tag
including `none`); the overall resolution errors exactly when both tiers
error; and when both tiers fail the reported error is the fallback tier's. -/
theorem resolve_tag_sha_two_tier (tag : Option String) (api : ApiOutcome)
    (git : GitOutcome) :
    (∀ e, resolve_via_api tag api = .error e →
        resolve_tag_sha tag api git = resolve_via_git tag git)
    ∧ ((∃ e, resolve_tag_sha tag api git = .error e) ↔
        (∃ e₁, resolve_via_api tag api = .error e₁)
          ∧ (∃ e₂, resolve_via_git tag git = .error e₂))
    ∧ (∀ e₁ e₂, resolve_via_api tag api = .error e₁ →
        resolve_via_git tag git = .error e₂ →
        resolve_tag_sha tag api git = .error e₂) := by
  refine ⟨?_, ?_, ?_⟩
  · intro e he
    simp [resolve_tag_sha, he]
  · constructor
    · rintro ⟨e, he⟩
      cases hapi : resolve_via_api tag api with
      | ok r => rw [resolve_tag_sha, hapi] at he; exact absurd he (by simp)
      | error e₁ =>
          rw [resolve_tag_sha, hapi] at he
          exact ⟨⟨e₁, rfl⟩, ⟨e, he⟩⟩
    · rintro ⟨⟨e₁, he₁⟩, ⟨e₂, he₂⟩⟩
      exact ⟨e₂, by rw [resolve_tag_sha, he₁]; exact he₂⟩
  · intro e₁ e₂ h₁ h₂
    rw [resolve_tag_sha, h₁]
    exact h₂

theorem resolve_tag_sha_two_tier_w :
    resolve_tag_sha none (.fail "HTTP 500") .noGit
      = .error "git not found and GitHub API unavailable" :=
  (resolve_tag_sha_two_tier none (.fail "HTTP 500") .noGit).2.2
    "HTTP 500" "git not found and GitHub API unavailable" rfl rfl

/-! ### Claim theorems for the renderer -/

/-- A successful `lookupD` names a key that is an element of the list. -/
theorem lookupD_isSome_mem {α : Type} (d : List (String × α)) (key : String)
    (m : α) (h : lookupD d key = some m) : ∃ kv ∈ d, kv.1 = key := by
  unfold lookupD at h
  cases hf : d.find? (fun kv => kv.1 == key) with
  | none => rw [hf] at h; exact absurd h (by simp)
  | some kv =>
      refine ⟨kv, List.mem_of_find?_eq_some hf, ?_⟩
      have := List.find?_some hf
      simpa using this

/-- A key of the first dict survives `dictUpdate` at the same position kind. -/
theorem dictUpdate_keeps_keys {α : Type} (d e : List (String × α))
    (kv : String × α) (h : kv ∈ d) :
    ∃ kv2 ∈ dictUpdate d e, kv2.1 = kv.1 := by
  refine ⟨(match lookupD e kv.1 with
    | some v => (kv.1, v)
    | none => kv), ?_, ?_⟩
  · exact List.mem_append_left _ (List.mem_map.mpr ⟨kv, h, rfl⟩)
  · cases lookupD e kv.1 <;> rfl

/-- C3 (amended): a required key that the caller does not supply is emitted
as the explicit placeholder line; a key the caller supplies (required or
optional) is emitted exactly when its value differs from the spec default —
so a required key supplied with its default value is silently elided; any
emitted key is either a supplied non-default value or an unsupplied required
key, hence an optional key is emitted only when the caller's value differs
from the documented default. -/
theorem generate_workflow_emission (wf : Workflow)
    (inputs : List (String × Value)) :
    (∀ key m, lookupD wf.required_inputs key = some m →
        lookupD inputs key = none →
        ("      " ++ key ++ ": " ++ squote ++ squote ++ "  # TODO: set this value")
          ∈ withLines wf inputs)
    ∧ (∀ key dflt v, lookupD inputs key = some v →
        emitDecision wf inputs key dflt
          = if pyEq v dflt then none
            else some ("      " ++ key ++ ": " ++ yaml_value v))
    ∧ (∀ key dflt, emitDecision wf inputs key dflt ≠ none →
        (∃ v, lookupD inputs key = some v ∧ pyEq v dflt = false)
          ∨ (lookupD inputs key = none ∧ (lookupD wf.required_inputs key).isSome))
    ∧ withLines wf inputs
        = (allInputs wf).filterMap
            (fun kv => emitDecision wf inputs kv.1 kv.2.default) := by
  refine ⟨?_, ?_, ?_, rfl⟩
  · intro key m hreq hnone
    obtain ⟨kv, hkv, hk⟩ := lookupD_isSome_mem wf.required_inputs key m hreq
    obtain ⟨kv2, hkv2, hk2⟩ :=
      dictUpdate_keeps_keys wf.required_inputs wf.optional_inputs kv hkv
    unfold withLines
    refine List.mem_filterMap.mpr ⟨kv2, hkv2, ?_⟩
    rw [hk2, hk]
    simp [emitDecision, hnone, hreq]
  · intro key dflt v h
    simp [emitDecision, h]
  · intro key dflt h
    unfold emitDecision at h
    cases hin : lookupD inputs key with
    | some v =>
        rw [hin] at h
        by_cases he : pyEq v dflt = true
        · simp [he] at h
        · exact Or.inl ⟨v, rfl, by simpa using he⟩
    | none =>
        rw [hin] at h
        by_cases hr : (lookupD wf.required_inputs key).isSome
        · exact Or.inr ⟨rfl, hr⟩
        · simp [hr] at h

theorem generate_workflow_emission_w :
    ("      " ++ "docker_image" ++ ": " ++ squote ++ squote ++ "  # TODO: set this value")
      ∈ withLines CPP_QUALITY [] :=
  (generate_workflow_emission CPP_QUALITY []).1 "docker_image"
    { type := "string", default := .str "",
      prompt := "Docker image (ghcr.io/org/image:tag)" } rfl rfl

/-- C3 counterexample: `docker_image` is a required input of `cpp-quality`,
the caller supplies it (with the empty string, which equals its spec
default), and the rendered `with:` block is the empty list — the required
key is silently omitted, neither as the caller's value nor as a
placeholder. -/
theorem generate_workflow_required_omitted_cex :
    (lookupD CPP_QUALITY.required_inputs "docker_image").isSome = true
    ∧ lookupD [("docker_image", Value.str "")] "docker_image"
        = some (Value.str "")
    ∧ withLines CPP_QUALITY [("docker_image", Value.str "")] = [] :=
  ⟨rfl, rfl, rfl⟩

/-- C6: the renderer is deterministic — identical `(spec, inputs, pin)`
arguments render byte-identical output.  The embedding is a pure function of
its arguments because the source reads nothing but them: dict iteration
follows insertion order and the permission block is sorted. -/
theorem generate_workflow_deterministic (n₁ n₂ : String) (wf₁ wf₂ : Workflow)
    (i₁ i₂ : List (String × Value)) (s₁ s₂ t₁ t₂ : String)
    (hn : n₁ = n₂) (hw : wf₁ = wf₂) (hi : i₁ = i₂) (hs : s₁ = s₂)
    (ht : t₁ = t₂) :
    generate_workflow_spec n₁ wf₁ i₁ s₁ t₁
      = generate_workflow_spec n₂ wf₂ i₂ s₂ t₂ := by
  subst hn hw hi hs ht; rfl

theorem generate_workflow_deterministic_w :
    generate_workflow_spec "python-quality" PYTHON_QUALITY
        [("python_linter", Value.str "flake8")] "abc" "v1"
      = generate_workflow_spec "python-quality" PYTHON_QUALITY
        [("python_linter", Value.str "flake8")] "abc" "v1" :=
  generate_workflow_deterministic _ _ _ _ _ _ _ _ _ _ rfl rfl rfl rfl rfl

/-! ### Claim theorems for the remediation engine -/

/-- C2 (amended): on a configured drifted repo with no existing PR, when
every step up to the status check succeeds and the substitution leaves the
working copy with no difference, the engine stops after clone and branch
creation — no commit, no push, no review-request creation — but it still
reports the repo with the "Opened PR" status line. -/
theorem no_change_no_side_effects (env : String → RepoWorld) (r : ScanResult)
    (latest_tag branch_name : String)
    (hc : r.has_config = true) (hu : r.up_to_date = false)
    (hq : check_existing_pr (env r.repo).prQuery = false)
    (h1 : (env r.repo).cloneErr = none) (h2 : (env r.repo).branchErr = none)
    (h3 : (env r.repo).substErr = none) (h4 : (env r.repo).statusErr = none)
    (h5 : (env r.repo).statusClean = true) :
    processRepo env latest_tag false branch_name r
      = (["Opened PR in " ++ r.repo ++ ": " ++ old_tag_of r ++ " -> " ++ latest_tag],
         [.checkPR r.repo branch_name, .clone r.repo,
          .createBranch r.repo branch_name])
    ∧ Op.commit r.repo ∉ (processRepo env latest_tag false branch_name r).2
    ∧ Op.push r.repo branch_name ∉ (processRepo env latest_tag false branch_name r).2
    ∧ Op.openPR r.repo branch_name ∉ (processRepo env latest_tag false branch_name r).2 := by
  have key : processRepo env latest_tag false branch_name r
      = (["Opened PR in " ++ r.repo ++ ": " ++ old_tag_of r ++ " -> " ++ latest_tag],
         [.checkPR r.repo branch_name, .clone r.repo,
          .createBranch r.repo branch_name]) := by
    simp [processRepo, hc, hu, hq, update_single_repo, h1, h2, h3, h4, h5]
  refine ⟨key, ?_, ?_, ?_⟩ <;> rw [key] <;> simp

theorem no_change_no_side_effects_w :
    processRepo (fun _ => cleanWorld) "v1.0.0" false "standard-ci/update-v1.0.0"
        driftedRepo
      = (["Opened PR in org/drifted-repo: v0.9.0 -> v1.0.0"],
         [.checkPR "org/drifted-repo" "standard-ci/update-v1.0.0",
          .clone "org/drifted-repo",
          .createBranch "org/drifted-repo" "standard-ci/update-v1.0.0"]) :=
  (no_change_no_side_effects (fun _ => cleanWorld) driftedRepo "v1.0.0"
    "standard-ci/update-v1.0.0" rfl rfl rfl rfl rfl rfl rfl rfl).1

/-- C2 counterexample: in the no-difference case the engine indeed performs
no commit/push/request-creation, but the repo IS reported with the
"Opened PR" status line — it is not resolved as a distinct `Current`
outcome. -/
theorem no_change_reported_opened_cex :
    auto_update_repos (fun _ => cleanWorld) [driftedRepo] "v1.0.0" false
      = (["Opened PR in org/drifted-repo: v0.9.0 -> v1.0.0"],
         [.checkPR "org/drifted-repo" "standard-ci/update-v1.0.0",
          .clone "org/drifted-repo",
          .createBranch "org/drifted-repo" "standard-ci/update-v1.0.0"])
    ∧ "Opened PR in org/drifted-repo: v0.9.0 -> v1.0.0"
        ∈ (auto_update_repos (fun _ => cleanWorld) [driftedRepo] "v1.0.0" false).1 :=
  ⟨rfl, by decide⟩

/-- C4 (amended): the exception of any step of `_update_single_repo` —
clone, branch creation, substitution, status check, add, commit, push, or a
raised exception from the request-creation command — is the step failure the
run captures; a non-zero exit status of `gh pr create` alone never changes
the behaviour; a captured failure becomes exactly one `Failed` status line
for that repo; and the loop distributes over list concatenation, so no
repo's failure aborts the processing of the remaining repos. -/
theorem remediation_failure_isolated (w : RepoWorld) (repo branch : String)
    (env : String → RepoWorld) (latest_tag branch_name : String)
    (r : ScanResult) (l₁ l₂ : List ScanResult) (dry : Bool) :
    ((update_single_repo w repo branch).2 = firstFailure w)
    ∧ (∀ b, update_single_repo { w with prCreateFails := b } repo branch
        = update_single_repo w repo branch)
    ∧ (∀ ops e, r.has_config = true → r.up_to_date = false →
        check_existing_pr (env r.repo).prQuery = false →
        update_single_repo (env r.repo) r.repo branch_name = (ops, some e) →
        processRepo env latest_tag false branch_name r
          = (["Failed " ++ r.repo ++ ": " ++ e],
             .checkPR r.repo branch_name :: ops))
    ∧ runRepos env latest_tag dry branch_name (l₁ ++ l₂)
        = ((runRepos env latest_tag dry branch_name l₁).1
            ++ (runRepos env latest_tag dry branch_name l₂).1,
           (runRepos env latest_tag dry branch_name l₁).2
            ++ (runRepos env latest_tag dry branch_name l₂).2) := by
  refine ⟨?_, ?_, ?_, ?_⟩
  · rcases w with ⟨pq, ce, be, se, ste, sc, ae, cme, pe, pce, pcf⟩
    cases ce <;> cases be <;> cases se <;> cases ste <;> cases sc <;>
      cases ae <;> cases cme <;> cases pe <;> cases pce <;> rfl
  · intro b
    rcases w with ⟨pq, ce, be, se, ste, sc, ae, cme, pe, pce, pcf⟩
    cases ce <;> cases be <;> cases se <;> cases ste <;> cases sc <;>
      cases ae <;> cases cme <;> cases pe <;> cases pce <;> rfl
  · intro ops e hc hu hq h
    simp [processRepo, hc, hu, hq, h]
  · simp [runRepos, List.map_append, List.flatten_append]

theorem remediation_failure_isolated_w :
    processRepo (fun _ => cloneFailWorld) "v1.0.0" false
        "standard-ci/update-v1.0.0" driftedRepo
      = (["Failed org/drifted-repo: clone failed"],
         [.checkPR "org/drifted-repo" "standard-ci/update-v1.0.0",
          .clone "org/drifted-repo"]) :=
  (remediation_failure_isolated cloneFailWorld "r" "b"
      (fun _ => cloneFailWorld) "v1.0.0" "standard-ci/update-v1.0.0"
      driftedRepo [] [] false).2.2.1
    [.clone "org/drifted-repo"] "clone failed" rfl rfl rfl rfl

/-- C4 counterexample: every step succeeds except the `gh pr create`
command, which exits non-zero; the engine ignores that exit status, reports
"Opened PR" and captures no `Failed` outcome for the repo. -/
theorem pr_create_failure_ignored_cex :
    prCreateFailWorld.prCreateFails = true
    ∧ auto_update_repos (fun _ => prCreateFailWorld) [driftedRepo] "v1.0.0" false
      = (["Opened PR in org/drifted-repo: v0.9.0 -> v1.0.0"],
         [.checkPR "org/drifted-repo" "standard-ci/update-v1.0.0",
          .clone "org/drifted-repo",
          .createBranch "org/drifted-repo" "standard-ci/update-v1.0.0",
          .commit "org/drifted-repo",
          .push "org/drifted-repo" "standard-ci/update-v1.0.0",
          .openPR "org/drifted-repo" "standard-ci/update-v1.0.0"]) :=
  ⟨rfl, rfl⟩

/-- C5: a configured drifted repo whose deterministic branch
(`"standard-ci/update-" ++ latest_tag`, a pure function of the target tag)
already carries an open PR is reported as skipped, and the only external
operation performed for it is the PR-list query — zero clone, commit or
push operations. -/
theorem existing_pr_short_circuit (env : String → RepoWorld) (r : ScanResult)
    (latest_tag : String) (n : Nat)
    (hc : r.has_config = true) (hu : r.up_to_date = false)
    (hq : (env r.repo).prQuery = .prs n) (hn : 0 < n) :
    auto_update_repos env [r] latest_tag false
      = (["Skipped " ++ r.repo ++ ": PR already open for "
            ++ ("standard-ci/update-" ++ latest_tag)],
         [.checkPR r.repo ("standard-ci/update-" ++ latest_tag)])
    ∧ Op.clone r.repo ∉ (auto_update_repos env [r] latest_tag false).2
    ∧ Op.commit r.repo ∉ (auto_update_repos env [r] latest_tag false).2
    ∧ (∀ b, Op.push r.repo b ∉ (auto_update_repos env [r] latest_tag false).2) := by
  have key : auto_update_repos env [r] latest_tag false
      = (["Skipped " ++ r.repo ++ ": PR already open for "
            ++ ("standard-ci/update-" ++ latest_tag)],
         [.checkPR r.repo ("standard-ci/update-" ++ latest_tag)]) := by
    simp [auto_update_repos, runRepos, processRepo, hc, hu,
      check_existing_pr, hq, hn]
  refine ⟨key, ?_, ?_, ?_⟩
  · rw [key]; simp
  · rw [key]; simp
  · intro b; rw [key]; simp

theorem existing_pr_short_circuit_w :
    auto_update_repos (fun _ => prOpenWorld) [driftedRepo] "v1.0.0" false
      = (["Skipped org/drifted-repo: PR already open for standard-ci/update-v1.0.0"],
         [.checkPR "org/drifted-repo" "standard-ci/update-v1.0.0"]) :=
  (existing_pr_short_circuit (fun _ => prOpenWorld) driftedRepo "v1.0.0" 1
    rfl rfl rfl (by decide)).1

/-- C8: a repo without a declared-state file scans to
`has_config = false` with the "No .standard.yml found" issue, and the
engine's loop produces no message and performs no external operation at all
for any scan result without config — an unconfigured repo is always
skipped. -/
theorem unconfigured_repo_skipped (repo latest_sha latest_tag : String)
    (env : String → RepoWorld) (lt bn : String) (dry : Bool) (r : ScanResult)
    (h : r.has_config = false) :
    (scan_repo repo none latest_sha latest_tag).has_config = false
    ∧ (scan_repo repo none latest_sha latest_tag).issues
        = ["No .standard.yml found"]
    ∧ processRepo env lt dry bn (scan_repo repo none latest_sha latest_tag)
        = ([], [])
    ∧ processRepo env lt dry bn r = ([], []) := by
  refine ⟨rfl, rfl, rfl, ?_⟩
  simp [processRepo, h]

theorem unconfigured_repo_skipped_w :
    processRepo (fun _ => okWorld) "v1.0.0" false "b" noConfigRepo = ([], []) :=
  (unconfigured_repo_skipped "org/no-config" "s" "t" (fun _ => okWorld)
    "v1.0.0" "b" false noConfigRepo rfl).2.2.2

/-- Every run of `_update_single_repo` attempts the clone. -/
theorem clone_mem_update_single_repo (w : RepoWorld) (repo branch : String) :
    Op.clone repo ∈ (update_single_repo w repo branch).1 := by
  rcases w with ⟨pq, ce, be, se, ste, sc, ae, cme, pe, pce, pcf⟩
  cases ce <;> cases be <;> cases se <;> cases ste <;> cases sc <;>
    cases ae <;> cases cme <;> cases pe <;> cases pce <;>
    exact List.mem_cons_self _ _

/-- C9 (implicit): when the PR-list query exits non-zero or yields
unparseable output, `_check_existing_pr` answers `False`, so the engine
proceeds for a configured drifted repo: it clones, and — when the remaining
steps succeed and the substitution changed files — pushes and opens a new
request, reporting "Opened PR". -/
theorem pr_query_failure_proceeds (env : String → RepoWorld) (r : ScanResult)
    (latest_tag bn : String)
    (hc : r.has_config = true) (hu : r.up_to_date = false)
    (hq : (env r.repo).prQuery = .error ∨ (env r.repo).prQuery = .badJson) :
    check_existing_pr (env r.repo).prQuery = false
    ∧ (processRepo env latest_tag false bn r).2
        = .checkPR r.repo bn :: (update_single_repo (env r.repo) r.repo bn).1
    ∧ Op.clone r.repo ∈ (processRepo env latest_tag false bn r).2
    ∧ ((env r.repo).cloneErr = none → (env r.repo).branchErr = none →
        (env r.repo).substErr = none → (env r.repo).statusErr = none →
        (env r.repo).statusClean = false → (env r.repo).addErr = none →
        (env r.repo).commitErr = none → (env r.repo).pushErr = none →
        (env r.repo).prCreateExc = none →
        processRepo env latest_tag false bn r
          = (["Opened PR in " ++ r.repo ++ ": " ++ old_tag_of r ++ " -> " ++ latest_tag],
             [.checkPR r.repo bn, .clone r.repo, .createBranch r.repo bn,
              .commit r.repo, .push r.repo bn, .openPR r.repo bn])) := by
  have hck : check_existing_pr (env r.repo).prQuery = false := by
    rcases hq with h | h <;> rw [h] <;> rfl
  have hops : (processRepo env latest_tag false bn r).2
      = .checkPR r.repo bn :: (update_single_repo (env r.repo) r.repo bn).1 := by
    rcases hus : update_single_repo (env r.repo) r.repo bn with ⟨ops, err⟩
    cases err <;> simp [processRepo, hc, hu, hck, hus]
  refine ⟨hck, hops, ?_, ?_⟩
  · rw [hops]
    exact List.mem_cons_of_mem _ (clone_mem_update_single_repo _ _ _)
  · intro h1 h2 h3 h4 h5 h6 h7 h8 h9
    simp [processRepo, hc, hu, hck, update_single_repo,
      h1, h2, h3, h4, h5, h6, h7, h8, h9]

theorem pr_query_failure_proceeds_w :
    processRepo (fun _ => prErrorWorld) "v1.0.0" false
        "standard-ci/update-v1.0.0" driftedRepo
      = (["Opened PR in org/drifted-repo: v0.9.0 -> v1.0.0"],
         [.checkPR "org/drifted-repo" "standard-ci/update-v1.0.0",
          .clone "org/drifted-repo",
          .createBranch "org/drifted-repo" "standard-ci/update-v1.0.0",
          .commit "org/drifted-repo",
          .push "org/drifted-repo" "standard-ci/update-v1.0.0",
          .openPR "org/drifted-repo" "standard-ci/update-v1.0.0"]) :=
  (pr_query_failure_proceeds (fun _ => prErrorWorld) driftedRepo "v1.0.0"
      "standard-ci/update-v1.0.0" rfl rfl (Or.inl rfl)).2.2.2
    rfl rfl rfl rfl rfl rfl rfl rfl rfl

/-- C10 (implicit): with `dry_run` true the engine performs no external
operation at all — no PR-list query, no clone, no commit, no push, no
request creation, for any repo — and its messages (before the all-up-to-date
fallback) are exactly one "Would update" line per configured drifted repo. -/
theorem dry_run_no_side_effects (env : String → RepoWorld)
    (rs : List ScanResult) (latest_tag : String) :
    auto_update_repos env rs latest_tag true
      = (let ms := (rs.filter (fun r => r.has_config && !r.up_to_date)).map
            (fun r => "Would update " ++ r.repo ++ ": " ++ old_tag_of r
              ++ " -> " ++ latest_tag);
         (if ms.isEmpty then ["All repos are up to date — no PRs needed"]
          else ms, [])) := by
  have key : ∀ bn, runRepos env latest_tag true bn rs
      = ((rs.filter (fun r => r.has_config && !r.up_to_date)).map
          (fun r => "Would update " ++ r.repo ++ ": " ++ old_tag_of r
            ++ " -> " ++ latest_tag), []) := by
    intro bn
    induction rs with
    | nil => rfl
    | cons r rest ih =>
        rcases hcfg : r.has_config <;> rcases hutd : r.up_to_date <;>
          simp only [runRepos, List.map_cons, List.flatten_cons,
            List.filter_cons, processRepo, hcfg, hutd] at ih ⊢ <;>
          simp_all [runRepos, processRepo]
  simp [auto_update_repos, key]

end StandardCI
